import Mathlib

set_option linter.unusedVariables false
set_option linter.unnecessarySimpa false

/-!
Shallow embedding of the slay_canvas backend pieces that the specification
talks about: the `ai/` multi-agent pipeline (`agents.py`, `workflows.py`,
`orchestrator.py`), the board service and its API layer
(`app/services/board_service.py`, `app/api/boards.py`), the OTP manager
(`app/utils/security.py`) and the JWT helpers (`app/utils/auth.py`).

Python conventions used throughout the embedding:
* `Dict[str, T]` becomes an association list `List (String × T)`; insertion,
  lookup and deletion mirror Python dict semantics on the keys.
* heterogeneous `Any` values that the modelled code actually stores are either
  strings or lists of strings, captured by `PyVal`.
* an `await`ed call that may raise an exception is threaded through an
  explicit oracle: `Option String` is the possible exception message raised at
  that call site, and `Except String α` is the outcome of a fallible external
  call (LLM requests, the workflow invocation, ...).
* `datetime.utcnow()` values become explicit `now` parameters (`Nat` seconds
  where they are compared, `String` where they are only stored).
-/

/-- The subset of Python values the modelled code stores in its
`Dict[str, Any]` fields: strings and lists of strings. -/
inductive PyVal where
  | str (s : String)
  | strList (xs : List String)
deriving DecidableEq, Repr

/-- Python `str()` of a `PyVal` (a list renders like `['a', 'b']`). -/
def PyVal.pyStr : PyVal → String
  | .str s => s
  | .strList xs =>
      "[" ++ String.intercalate ", " (xs.map (fun s => "'" ++ s ++ "'")) ++ "]"

/-- Python dict lookup `d.get(k)`. -/
def dictGet [BEq κ] (d : List (κ × α)) (k : κ) : Option α :=
  (d.find? (fun p => p.1 == k)).map (·.2)

/-- Python dict lookup with default, `d.get(k, dflt)`. -/
def dictGetD [BEq κ] (d : List (κ × α)) (k : κ) (dflt : α) : α :=
  (dictGet d k).getD dflt

/-- Python dict assignment `d[k] = v`: replace the binding if the key is
present, append it otherwise. -/
def dictSet [BEq κ] (d : List (κ × α)) (k : κ) (v : α) : List (κ × α) :=
  if (d.find? (fun p => p.1 == k)).isSome then
    d.map (fun p => if p.1 == k then (k, v) else p)
  else
    d ++ [(k, v)]

/-- Python `del d[k]` (also models `if k in d: del d[k]` since deleting an
absent key is then a no-op). -/
def dictRemove [BEq κ] (d : List (κ × α)) (k : κ) : List (κ × α) :=
  d.filter (fun p => !(p.1 == k))

/-- Python membership test `k in d`. -/
def dictContains [BEq κ] (d : List (κ × α)) (k : κ) : Bool :=
  (dictGet d k).isSome

/-- Python truthiness of an `Optional[str]`: `None` and `""` are falsy. -/
def strTruthy : Option String → Bool
  | none => false
  | some s => !(s == "")

/-- Python `x or dflt` on an `Optional[str]` value. -/
def pyOr (x : Option String) (dflt : String) : String :=
  match x with
  | none => dflt
  | some s => if s == "" then dflt else s

/-- Outcome of `await`ing a call whose computed value is `v` but whose
execution may be interrupted by an exception carrying message `interrupt`. -/
def awaitCall (interrupt : Option String) (v : α) : Except String α :=
  match interrupt with
  | some e => .error e
  | none => .ok v

/-- Model of `AgentState` from `ai/agents.py`: the shared pydantic record passed
between the three agents.  Field defaults mirror the pydantic defaults. -/
structure AgentState where
  media_file_id : Int
  file_path : String
  file_type : String
  metadata : List (String × PyVal) := []
  transcription : Option String := none
  summary : Option String := none
  tags : List String := []
  insights : List (String × PyVal) := []
  content_generated : List (String × String) := []
  errors : List String := []
  processing_status : String := "pending"
deriving DecidableEq, Repr

/-- Model of `TranscriptionAgent._transcribe_file`: the simulated transcription. -/
def transcribeFile (file_path : String) : String :=
  "Transcription of " ++ file_path ++ " - This is a simulated transcription."

/-- Model of `TranscriptionAgent.process`.  `interrupt` is the exception (if any)
raised while awaiting `_transcribe_file`; the surrounding
`try/except Exception` of the source turns it into an error state. -/
def TranscriptionAgent.process (interrupt : Option String) (s : AgentState) :
    AgentState :=
  if !((["audio", "video"] : List String).contains s.file_type) then
    { s with processing_status := "skipped" }
  else
    match awaitCall interrupt (transcribeFile s.file_path) with
    | .ok t => { s with transcription := some t, processing_status := "transcribed" }
    | .error e =>
        { s with errors := s.errors ++ ["Transcription error: " ++ e],
                 processing_status := "error" }

/-- Model of `AnalysisAgent._generate_summary`: returns the stripped LLM reply, or the
fallback sentence if the LLM call raises. -/
def generateSummary (llm : Except String String) (content : String) : String :=
  match llm with
  | .ok r => r.trim
  | .error _ =>
      "Summary: Content analysis of " ++ toString content.length ++ " characters."

/-- Model of `AnalysisAgent._extract_tags`: split the LLM reply on commas, strip each
piece and keep at most 7; on an LLM failure return the three fixed tags. -/
def extractTags (llm : Except String String) (content : String) : List String :=
  match llm with
  | .ok r => ((r.splitOn ",").map String.trim).take 7
  | .error _ => ["media", "content", "analysis"]

/-- Model of `AnalysisAgent._generate_insights`: a fixed insights dict on LLM success
and a slightly different fixed dict on failure, both timestamped. -/
def generateInsights (llm : Except String String) (now : String)
    (content file_type : String) : List (String × PyVal) :=
  match llm with
  | .ok _ =>
      [("sentiment", .str "neutral"),
       ("key_topics", .strList ["general", "media"]),
       ("complexity_level", .str "intermediate"),
       ("estimated_audience", .str "general audience"),
       ("analysis_timestamp", .str now)]
  | .error _ =>
      [("sentiment", .str "neutral"),
       ("key_topics", .strList ["media"]),
       ("complexity_level", .str "unknown"),
       ("estimated_audience", .str "general"),
       ("analysis_timestamp", .str now)]

/-- Oracle for one run of `AnalysisAgent.process`: the outcome of the LLM
request made inside each helper, the possible exception raised while awaiting
each helper call, and the `utcnow` timestamp string. -/
structure AnalysisOracle where
  summaryLLM : Except String String
  tagsLLM : Except String String
  insightsLLM : Except String String
  summaryInterrupt : Option String := none
  tagsInterrupt : Option String := none
  insightsInterrupt : Option String := none
  now : String := ""
deriving Repr

/-- The `except Exception` branch shared by `AnalysisAgent.process`'s three
await points: append the message and mark the state as errored. -/
def analysisError (s : AgentState) (e : String) : AgentState :=
  { s with errors := s.errors ++ ["Analysis error: " ++ e],
           processing_status := "error" }

/-- Model of `AnalysisAgent.process`.  The three helper calls are awaited in order and
each mutates the state before the next one runs, so an exception at a later
call leaves the earlier assignments in place, exactly as in the source. -/
def AnalysisAgent.process (o : AnalysisOracle) (s : AgentState) : AgentState :=
  let content := pyOr s.transcription "No transcription available"
  match awaitCall o.summaryInterrupt (generateSummary o.summaryLLM content) with
  | .error e => analysisError s e
  | .ok summary =>
    let s1 := { s with summary := some summary }
    match awaitCall o.tagsInterrupt (extractTags o.tagsLLM content) with
    | .error e => analysisError s1 e
    | .ok tags =>
      let s2 := { s1 with tags := tags }
      match awaitCall o.insightsInterrupt
          (generateInsights o.insightsLLM o.now content s.file_type) with
      | .error e => analysisError s2 e
      | .ok ins => { s2 with insights := ins, processing_status := "analyzed" }

/-- Model of `ContentGenerationAgent._generate_blog_post`. -/
def generateBlogPost (llm : Except String String) (content summary : String) :
    String :=
  match llm with
  | .ok r => r.trim
  | .error _ =>
      "# Blog Post\n\n" ++ summary ++
        "\n\nThis is a generated blog post based on the analyzed content."

/-- The hashtag string `" ".join(f"#{tag.replace(' ', '')}" for tag in tags[:k])`. -/
def hashtagJoin (tags : List String) (k : Nat) : String :=
  String.intercalate " " ((tags.take k).map (fun t => "#" ++ (t.replace " " "")))

/-- Model of `ContentGenerationAgent._generate_social_media`. -/
def generateSocialMedia (llm : Except String String) (summary : String)
    (tags : List String) : String :=
  match llm with
  | .ok r => r.trim
  | .error _ => summary ++ " " ++ hashtagJoin tags 3

/-- Model of `ContentGenerationAgent._generate_script`. -/
def generateScript (llm : Except String String) (content : String)
    (insights : List (String × PyVal)) : String :=
  match llm with
  | .ok r => r.trim
  | .error _ =>
      "Script for " ++
        (dictGetD insights "estimated_audience" (.str "general audience")).pyStr ++
        ":\n\n[Based on analyzed content]"

/-- Model of `ContentGenerationAgent._generate_qna`. -/
def generateQnA (llm : Except String String) (content : String) : String :=
  match llm with
  | .ok r => r.trim
  | .error _ =>
      "Q: What is this content about?\nA: This content has been analyzed using AI and insights have been generated."

/-- Oracle for one run of `ContentGenerationAgent.process`: the four LLM
outcomes and the possible exception at each of the four awaited calls. -/
structure ContentOracle where
  blogLLM : Except String String
  socialLLM : Except String String
  scriptLLM : Except String String
  qnaLLM : Except String String
  blogInterrupt : Option String := none
  socialInterrupt : Option String := none
  scriptInterrupt : Option String := none
  qnaInterrupt : Option String := none
deriving Repr

/-- Model of `ContentGenerationAgent.process`.  The `content_generated` dict literal is
only assigned once all four awaited helper calls return, so any exception
leaves it untouched and lands in the `except Exception` branch. -/
def ContentGenerationAgent.process (o : ContentOracle) (s : AgentState) :
    AgentState :=
  let content := pyOr s.transcription "No content available"
  let summary := pyOr s.summary "No summary available"
  let dict : Except String (List (String × String)) := do
    let blog ← awaitCall o.blogInterrupt (generateBlogPost o.blogLLM content summary)
    let social ← awaitCall o.socialInterrupt (generateSocialMedia o.socialLLM summary s.tags)
    let script ← awaitCall o.scriptInterrupt (generateScript o.scriptLLM content s.insights)
    let qna ← awaitCall o.qnaInterrupt (generateQnA o.qnaLLM content)
    pure [("blog_post", blog), ("social_media", social),
          ("script", script), ("q_and_a", qna)]
  match dict with
  | .ok cg => { s with content_generated := cg, processing_status := "completed" }
  | .error e =>
      { s with errors := s.errors ++ ["Content generation error: " ++ e],
               processing_status := "error" }

/-- Model of `MediaProcessingWorkflow._should_analyze`: the conditional routing
function evaluated on the state produced by the `transcribe` node. -/
def shouldAnalyze (s : AgentState) : String :=
  if (["audio", "video"] : List String).contains s.file_type &&
      strTruthy s.transcription then
    "analyze"
  else if (["image", "document"] : List String).contains s.file_type then
    "analyze"
  else
    "skip"

/-- The nodes of the `MediaProcessingWorkflow` graph built in
`_build_workflow`. -/
inductive WNode where
  | transcribe
  | analyze
  | generate_content
deriving DecidableEq, Repr

/-- The label table of the conditional edges out of `transcribe`:
`{"analyze": "analyze", "skip": "generate_content"}`. -/
def routeMap : String → Option WNode
  | "analyze" => some .analyze
  | "skip" => some .generate_content
  | _ => none

/-- What the graph does after a node finishes: stop at `END`, move to the
next node, or fail on a routing label missing from the table. -/
inductive NextStep where
  | halt
  | goto (n : WNode)
  | invalid
deriving DecidableEq, Repr

/-- Oracles for one full run of the media workflow: the transcription await,
and the per-agent oracles. -/
structure WorkflowOracle where
  transcribeInterrupt : Option String := none
  analysis : AnalysisOracle
  content : ContentOracle

/-- One step of the compiled graph: run the node's agent on the state, then
follow `_build_workflow`'s edges (conditional out of `transcribe`, fixed edge
`analyze → generate_content`, `generate_content → END`). -/
def stepNode (o : WorkflowOracle) : WNode → AgentState → AgentState × NextStep
  | .transcribe, s =>
      let s' := TranscriptionAgent.process o.transcribeInterrupt s
      match routeMap (shouldAnalyze s') with
      | some n => (s', .goto n)
      | none => (s', .invalid)
  | .analyze, s => (AnalysisAgent.process o.analysis s, .goto .generate_content)
  | .generate_content, s => (ContentGenerationAgent.process o.content s, .halt)

/-- Fuel-bounded execution of the graph from node `n`, returning the list of
nodes visited and the final state (`none` when the fuel runs out or a routing
label is missing). -/
def runNodes (o : WorkflowOracle) : Nat → WNode → AgentState →
    Option (List WNode × AgentState)
  | 0, _, _ => none
  | fuel + 1, n, s =>
      match stepNode o n s with
      | (s', .halt) => some ([n], s')
      | (s', .goto n') => (runNodes o fuel n' s').map (fun p => (n :: p.1, p.2))
      | (_, .invalid) => none

/-- The initial `AgentState` constructed by
`MediaProcessingWorkflow.process_media` (`metadata or {}` turns a missing
dict into the empty one). -/
def initialState (media_file_id : Int) (file_path file_type : String)
    (metadata : Option (List (String × PyVal))) : AgentState :=
  { media_file_id := media_file_id,
    file_path := file_path,
    file_type := file_type,
    metadata := metadata.getD [] }

/-- Model of `MediaProcessingWorkflow.process_media`: build the initial state and run
the compiled graph from the entry point `transcribe`.  Fuel 4 strictly
exceeds the longest path of the three-node graph. -/
def processMedia (o : WorkflowOracle) (media_file_id : Int)
    (file_path file_type : String)
    (metadata : Option (List (String × PyVal))) :
    Option (List WNode × AgentState) :=
  runNodes o 4 .transcribe (initialState media_file_id file_path file_type metadata)

/-- The spec's reading of the routing rule, written from the spec's words
("the graph routing logic is a single conditional on file type"): a function
of the file type alone. -/
def specRouteOfFileType (file_type : String) : String :=
  if (["audio", "video", "image", "document"] : List String).contains file_type then
    "analyze"
  else
    "skip"

/-- The rows of `MediaFile` that `AIOrchestrator.process_media_file` reads. -/
structure MediaFile where
  id : Int
  file_path : String
  file_type : String
  metadata : Option (List (String × PyVal)) := none
deriving Repr

/-- One entry of `AIOrchestrator.job_history`: the dict literal appended on
the normal path of `process_media_file`. -/
structure JobRecord where
  media_file_id : Int
  completed_at : String
  status : String
  errors : List String
deriving DecidableEq, Repr

/-- The in-memory bookkeeping of `AIOrchestrator`. -/
structure OrchestratorState where
  active_jobs : List (Int × AgentState) := []
  job_history : List JobRecord := []
deriving Repr

/-- The `AgentState` inserted into `active_jobs` before the workflow runs. -/
def startedState (mf : MediaFile) : AgentState :=
  { media_file_id := mf.id,
    file_path := mf.file_path,
    file_type := mf.file_type,
    processing_status := "started" }

/-- The `AgentState` built in the `except` branch of `process_media_file`. -/
def orchestratorErrorState (mf : MediaFile) (e : String) : AgentState :=
  { media_file_id := mf.id,
    file_path := mf.file_path,
    file_type := mf.file_type,
    processing_status := "error",
    errors := [e] }

/-- Model of `AIOrchestrator.process_media_file`.  `workflow` is the outcome of
`await self.media_workflow.process_media(...)` — the fallible call of the
`try` block (`_update_media_status` and `_save_ai_results` are `pass`-bodied
stubs in the source).  `now` is the `datetime.utcnow()` completion
timestamp.  Returns the updated bookkeeping and the returned `AgentState`. -/
def process_media_file (st : OrchestratorState)
    (workflow : Except String AgentState) (mf : MediaFile) (now : String) :
    OrchestratorState × AgentState :=
  let active1 := dictSet st.active_jobs mf.id (startedState mf)
  match workflow with
  | .ok result =>
      let active2 := dictRemove active1 mf.id
      ({ active_jobs := active2,
         job_history := st.job_history ++
           [{ media_file_id := mf.id, completed_at := now,
              status := result.processing_status, errors := result.errors }] },
       result)
  | .error e =>
      let active2 := dictRemove active1 mf.id
      ({ st with active_jobs := active2 }, orchestratorErrorState mf e)

/-- The semaphore limit of `AIOrchestrator.batch_process_media`:
`asyncio.Semaphore(3)`. -/
def batchSemaphoreLimit : Nat := 3

/-- Phase of one batched `process_media_file` job: not yet started (its
`process_with_semaphore` wrapper is still blocked on the semaphore), holding
the semaphore and running, or finished (semaphore released). -/
inductive JobPhase where
  | waiting
  | running
  | done
deriving DecidableEq, Repr

/-- Number of jobs currently holding the semaphore. -/
def runningCount (jobs : List JobPhase) : Nat :=
  jobs.countP (fun p => p == JobPhase.running)

/-- Interleaving semantics of `batch_process_media`: a waiting job may start
only when fewer than `batchSemaphoreLimit` jobs hold the semaphore
(`async with semaphore` acquires), and a running job may finish at any time
(leaving the `async with` block releases). -/
inductive BatchStep : List JobPhase → List JobPhase → Prop
  | start (jobs : List JobPhase) (i : Nat)
      (hw : jobs.get? i = some JobPhase.waiting)
      (hcap : runningCount jobs < batchSemaphoreLimit) :
      BatchStep jobs (jobs.set i JobPhase.running)
  | finish (jobs : List JobPhase) (i : Nat)
      (hr : jobs.get? i = some JobPhase.running) :
      BatchStep jobs (jobs.set i JobPhase.done)

/-- The configurations reachable during a batch over `n` media files: all
jobs start waiting (the `limited_tasks` coroutines gathered by
`asyncio.gather`; the earlier `tasks` list is never awaited and never runs). -/
inductive BatchReachable (n : Nat) : List JobPhase → Prop
  | init : BatchReachable n (List.replicate n JobPhase.waiting)
  | step {jobs jobs' : List JobPhase} :
      BatchReachable n jobs → BatchStep jobs jobs' → BatchReachable n jobs'

/-- The statistics record returned by `AIOrchestrator.get_system_stats`
(the float `success_rate` is modelled exactly over `ℚ`). -/
structure SystemStats where
  total_processed : Nat
  active_jobs : Nat
  success_rate : ℚ
  average_processing_time : ℚ
  system_status : String
deriving DecidableEq, Repr

/-- Model of `AIOrchestrator._calculate_avg_processing_time`: a mock constant. -/
def calculateAvgProcessingTime : ℚ := 45.5

/-- Model of `AIOrchestrator.get_system_stats`. -/
def get_system_stats (st : OrchestratorState) : SystemStats :=
  let total_processed := st.job_history.length
  let active_jobs := st.active_jobs.length
  let successful_jobs :=
    st.job_history.countP (fun job => job.status == "completed")
  let success_rate : ℚ :=
    if total_processed > 0 then (successful_jobs : ℚ) / (total_processed : ℚ) else 0
  { total_processed := total_processed,
    active_jobs := active_jobs,
    success_rate := success_rate,
    average_processing_time := calculateAvgProcessingTime,
    system_status := if success_rate > 0.8 then "operational" else "degraded" }

/-- The columns of `Board` that the board service reads and writes. -/
structure Board where
  id : Int
  user_id : Int
  title : String
  description : Option String := none
  is_private : Bool := true
deriving DecidableEq, Repr

/-- Model of `BoardUpdate` (`app/schemas/board.py`): all fields optional. -/
structure BoardUpdate where
  title : Option String := none
  description : Option String := none
  is_private : Option Bool := none
deriving DecidableEq, Repr

/-- Model of `BoardService.get_board_by_id`: `SELECT ... WHERE id = board_id AND
user_id = user_id` followed by `scalar_one_or_none()` (which returns the
single matching row, and `None` otherwise — a multi-row result raises and is
caught by the service's `except`, which also returns `None`). -/
def get_board_by_id (db : List Board) (board_id user_id : Int) : Option Board :=
  match db.filter (fun b => b.id == board_id && b.user_id == user_id) with
  | [b] => some b
  | _ => none

/-- Model of `setattr` application of the provided (`exclude_unset`) fields of a
`BoardUpdate` to a board row. -/
def applyBoardUpdate (b : Board) (u : BoardUpdate) : Board :=
  { b with title := u.title.getD b.title,
           description := match u.description with
             | some d => some d
             | none => b.description,
           is_private := u.is_private.getD b.is_private }

/-- Model of `BoardService.update_board`: fetch with the ownership filter; if no row
is found return `None` and leave the table unchanged, else mutate the row
and commit.  Returns the new table and the service result. -/
def update_board (db : List Board) (board_id : Int) (u : BoardUpdate)
    (user_id : Int) : List Board × Option Board :=
  match get_board_by_id db board_id user_id with
  | none => (db, none)
  | some b =>
      let b' := applyBoardUpdate b u
      (db.map (fun x => if x.id == b.id then b' else x), some b')

/-- Model of `BoardService.delete_board`: fetch with the ownership filter; if no row
is found return `False` and leave the table unchanged, else delete the row
and commit. -/
def delete_board (db : List Board) (board_id user_id : Int) :
    List Board × Bool :=
  match get_board_by_id db board_id user_id with
  | none => (db, false)
  | some b => (db.filter (fun x => !(x.id == b.id)), true)

/-- An HTTP-level outcome of a route handler: a response body or an
`HTTPException` with a status code and detail string. -/
inductive ApiResult (α : Type) where
  | ok (v : α)
  | httpError (code : Nat) (detail : String)
deriving DecidableEq, Repr

/-- Model of `GET /boards/{board_id}` (`get_board` in `app/api/boards.py`). -/
def api_get_board (db : List Board) (board_id user_id : Int) :
    ApiResult Board :=
  match get_board_by_id db board_id user_id with
  | none => .httpError 404 "Board not found"
  | some b => .ok b

/-- Model of `PUT /boards/{board_id}` (`update_board` route): 404 when the service
returns no board. -/
def api_update_board (db : List Board) (board_id : Int) (u : BoardUpdate)
    (user_id : Int) : List Board × ApiResult Board :=
  match update_board db board_id u user_id with
  | (db', none) => (db', .httpError 404 "Board not found")
  | (db', some b) => (db', .ok b)

/-- Model of `DELETE /boards/{board_id}` (`delete_board` route): 404 when the service
returns `False`. -/
def api_delete_board (db : List Board) (board_id user_id : Int) :
    List Board × ApiResult String :=
  match delete_board db board_id user_id with
  | (db', false) => (db', .httpError 404 "Board not found")
  | (db', true) => (db', .ok "Board deleted successfully")

/-- The per-email record stored in `OTPManager._otp_storage`.  `expires_at`
is a UTC timestamp in seconds. -/
structure OtpEntry where
  otp : String
  expires_at : Nat
  attempts : Nat
deriving DecidableEq, Repr

/-- Model of `OTPManager.generate_otp`: draw `length` digits (`draw i % 10` models the
`i`-th `secrets.randbelow(10)`), store the fresh entry with expiry
`now + expiry_minutes * 60` and zero attempts, and return the OTP. -/
def generate_otp (draw : Nat → Nat) (now : Nat) (length : Nat := 6)
    (expiry_minutes : Nat := 10) : String × Option OtpEntry :=
  let otp := String.join ((List.range length).map (fun i => toString (draw i % 10)))
  (otp, some { otp := otp, expires_at := now + expiry_minutes * 60, attempts := 0 })

/-- Model of `OTPManager.verify_otp` for one email: the first component is the
returned boolean, the second the storage entry for that email afterwards
(`none` models the key having been deleted). -/
def verify_otp (now : Nat) (st : Option OtpEntry) (otp : String)
    (max_attempts : Nat := 3) : Bool × Option OtpEntry :=
  match st with
  | none => (false, none)
  | some e =>
      if e.expires_at < now then
        (false, none)
      else if max_attempts ≤ e.attempts then
        (false, none)
      else
        let e' : OtpEntry := { e with attempts := e.attempts + 1 }
        if e'.otp == otp then (true, none)
        else (false, some e')

/-- A sequence of `verify_otp` calls (each with its own clock reading, OTP
guess and `max_attempts`), returning the list of results. -/
def verifySeq (st : Option OtpEntry) :
    List (Nat × String × Nat) → List Bool × Option OtpEntry
  | [] => ([], st)
  | (now, otp, maxA) :: calls =>
      let r := verify_otp now st otp maxA
      let rest := verifySeq r.2 calls
      (r.1 :: rest.1, rest.2)

/-- Python `str(n)` for a natural number: its decimal digits. -/
def natDigits (n : Nat) : List Char :=
  if h : n < 10 then [Char.ofNat (48 + n)]
  else natDigits (n / 10) ++ [Char.ofNat (48 + n % 10)]
decreasing_by simp_wf; omega

/-- Python `str(n)` on a non-negative `int`. -/
def pyStrNat (n : Nat) : String :=
  String.mk (natDigits n)

/-- Fold a digit string back into a number. -/
def digitsVal (cs : List Char) : Nat :=
  cs.foldl (fun a c => a * 10 + (c.toNat - 48)) 0

/-- The fragment of Python `int(s)` exercised by the JWT code: parse a
non-empty all-digit string, raise (`none`) otherwise. -/
def pyInt (s : String) : Option Nat :=
  if s.data ≠ [] ∧ s.data.all Char.isDigit then some (digitsVal s.data)
  else none

/-- A value stored in a JWT claim set: the modelled code stores strings
(`sub`, `email`) and one numeric timestamp (`exp`). -/
inductive JwtVal where
  | str (s : String)
  | num (n : Nat)
deriving DecidableEq, Repr

/-- A signed token, modelled per the `jose` library contract: the claim set
together with the key that signed it (a token verifies exactly under the
signing key). -/
structure JwtToken where
  claims : List (String × JwtVal)
  key : String
deriving DecidableEq, Repr

/-- Decoding errors distinguished by `get_current_user_id`'s handlers. -/
inductive JwtError where
  | expiredSignature
  | invalid
deriving DecidableEq, Repr

/-- Model of `jose.jwt.decode` (modelled from the library contract used by the
source): reject a wrong key, raise `ExpiredSignatureError` when the `exp`
claim is in the past, and return the claim set otherwise. -/
def jwtDecode (t : JwtToken) (key : String) (now : Nat) :
    Except JwtError (List (String × JwtVal)) :=
  if t.key ≠ key then .error .invalid
  else
    match dictGet t.claims "exp" with
    | some (.num e) => if e < now then .error .expiredSignature else .ok t.claims
    | _ => .ok t.claims

/-- Model of `create_access_token` (`app/utils/auth.py`): copy the payload, add an
`exp` claim `now + expires_delta` (default 24 hours) and sign with the
secret key. -/
def create_access_token (data : List (String × JwtVal))
    (expires_delta : Option Nat) (now : Nat) (secret : String) : JwtToken :=
  let expire := now + expires_delta.getD (24 * 60 * 60)
  { claims := dictSet data "exp" (.num expire), key := secret }

/-- Model of `get_current_user_id` (`app/utils/auth.py`): decode the bearer token,
read the `sub` claim and convert it with `int(...)`; an
`ExpiredSignatureError` maps to 401 "Token expired" and every other failure
(bad signature, missing or non-numeric `sub`) to 401 "Invalid token". -/
def get_current_user_id (t : JwtToken) (now : Nat) (secret : String) :
    Except (Nat × String) Nat :=
  match jwtDecode t secret now with
  | .error .expiredSignature => .error (401, "Token expired")
  | .error .invalid => .error (401, "Invalid token")
  | .ok payload =>
      match dictGet payload "sub" with
      | some (.str s) =>
          match pyInt s with
          | some n => .ok n
          | none => .error (401, "Invalid token")
      | some (.num n) => .ok n
      | none => .error (401, "Invalid token")

/-- Deleting a key from a dict leaves no binding for that key. -/
theorem dictGet_dictRemove [BEq κ] (d : List (κ × α)) (k : κ) :
    dictGet (dictRemove d k) k = none := by
  induction d with
  | nil => rfl
  | cons p rest ih =>
      rw [dictRemove, List.filter_cons]
      cases h : p.1 == k with
      | true => simpa [h, dictRemove] using ih
      | false =>
          simp only [h, Bool.not_false, if_pos]
          simpa [dictGet, List.find?, h, dictRemove] using ih

/-- C5: `AIOrchestrator.process_media_file` keeps the job bookkeeping
consistent: whatever the workflow outcome, the media file's id is absent from
`active_jobs` once the call returns, and on the normal path a record with the
media file id, completion time, final status and errors is appended to
`job_history`. -/
theorem process_media_file_bookkeeping (st : OrchestratorState)
    (wf : Except String AgentState) (mf : MediaFile) (now : String) :
    dictGet (process_media_file st wf mf now).1.active_jobs mf.id = none ∧
    (∀ r, wf = Except.ok r →
      (process_media_file st wf mf now).1.job_history =
        st.job_history ++
          [{ media_file_id := mf.id, completed_at := now,
             status := r.processing_status, errors := r.errors }]) := by
  constructor
  · cases wf <;> simp [process_media_file, dictGet_dictRemove]
  · rintro r rfl
    rfl

/-- Witness for C5 at a concrete orchestrator state, media file and workflow
result. -/
theorem process_media_file_bookkeeping_witness :
    dictGet (process_media_file {}
        (Except.ok { media_file_id := 5, file_path := "a.mp3",
                     file_type := "audio", processing_status := "completed" })
        { id := 5, file_path := "a.mp3", file_type := "audio" } "T").1.active_jobs 5
      = none ∧
    (process_media_file {}
        (Except.ok { media_file_id := 5, file_path := "a.mp3",
                     file_type := "audio", processing_status := "completed" })
        { id := 5, file_path := "a.mp3", file_type := "audio" } "T").1.job_history
      = [{ media_file_id := 5, completed_at := "T",
           status := "completed", errors := [] }] := by
  have h := process_media_file_bookkeeping {}
    (Except.ok { media_file_id := 5, file_path := "a.mp3",
                 file_type := "audio", processing_status := "completed" })
    { id := 5, file_path := "a.mp3", file_type := "audio" } "T"
  exact ⟨h.1, by simpa using h.2 _ rfl⟩

/-- C6: when no board row has the requested id and owner, the read, update
and delete endpoints all answer HTTP 404 with no board, and the update and
delete paths leave the table unchanged. -/
theorem boards_ownership_404 (db : List Board) (bid uid : Int) (u : BoardUpdate)
    (h : ∀ b ∈ db, ¬(b.id = bid ∧ b.user_id = uid)) :
    api_get_board db bid uid = ApiResult.httpError 404 "Board not found" ∧
    api_update_board db bid u uid = (db, ApiResult.httpError 404 "Board not found") ∧
    api_delete_board db bid uid = (db, ApiResult.httpError 404 "Board not found") := by
  have hfilter : db.filter (fun b => b.id == bid && b.user_id == uid) = [] := by
    rw [List.filter_eq_nil_iff]
    intro b hb
    have hb' := h b hb
    simp only [Bool.and_eq_true, beq_iff_eq]
    tauto
  have hget : get_board_by_id db bid uid = none := by
    simp [get_board_by_id, hfilter]
  exact ⟨by simp [api_get_board, hget],
         by simp [api_update_board, update_board, hget],
         by simp [api_delete_board, delete_board, hget]⟩

/-- Witness for C6: a one-row table owned by user 1, queried by user 2. -/
theorem boards_ownership_404_witness :
    api_get_board [{ id := 1, user_id := 1, title := "t" }] 1 2
      = ApiResult.httpError 404 "Board not found" ∧
    api_update_board [{ id := 1, user_id := 1, title := "t" }] 1 {} 2
      = ([{ id := 1, user_id := 1, title := "t" }],
         ApiResult.httpError 404 "Board not found") ∧
    api_delete_board [{ id := 1, user_id := 1, title := "t" }] 1 2
      = ([{ id := 1, user_id := 1, title := "t" }],
         ApiResult.httpError 404 "Board not found") :=
  boards_ownership_404 [{ id := 1, user_id := 1, title := "t" }] 1 2 {}
    (by decide)

/-- Setting index `i` of a list rebalances `countP` by the predicate's value
on the old and new entries. -/
theorem countP_set_balance (p : α → Bool) :
    ∀ (l : List α) (i : Nat) (a b : α), l.get? i = some b →
      (l.set i a).countP p + (if p b then 1 else 0) =
        l.countP p + (if p a then 1 else 0) := by
  intro l
  induction l with
  | nil => intro i a b h; cases h
  | cons x xs ih =>
      intro i a b h
      cases i with
      | zero =>
          have hx : x = b := by simpa using h
          subst hx
          simp [List.set, List.countP_cons]
          omega
      | succ n =>
          have hrec := ih n a b (by simpa using h)
          simp only [List.set, List.countP_cons]
          omega

/-- One step of the batch interleaving preserves the semaphore bound. -/
theorem batch_step_bound {l l' : List JobPhase} (hstep : BatchStep l l')
    (hl : runningCount l ≤ batchSemaphoreLimit) :
    runningCount l' ≤ batchSemaphoreLimit := by
  cases hstep with
  | start i hw hcap =>
      have hb := countP_set_balance (fun p => p == JobPhase.running)
        l i JobPhase.running JobPhase.waiting hw
      simp only [runningCount, batchSemaphoreLimit] at *
      simp at hb
      omega
  | finish i hr =>
      have hb := countP_set_balance (fun p => p == JobPhase.running)
        l i JobPhase.done JobPhase.running hr
      simp only [runningCount, batchSemaphoreLimit] at *
      simp at hb
      omega

/-- C3: along every interleaving of `batch_process_media`, at most
`batchSemaphoreLimit = 3` of the batched `process_media_file` jobs hold the
semaphore — i.e. run — at any point. -/
theorem batch_semaphore_bound (n : Nat) (jobs : List JobPhase)
    (h : BatchReachable n jobs) : runningCount jobs ≤ batchSemaphoreLimit := by
  induction h with
  | init =>
      have hz : runningCount (List.replicate n JobPhase.waiting) = 0 := by
        rw [runningCount, List.countP_eq_zero]
        intro a ha
        rw [List.eq_of_mem_replicate ha]
        decide
      omega
  | step hreach hstep ih => exact batch_step_bound hstep ih

/-- Witness for C3: a batch of four jobs after one semaphore acquisition. -/
theorem batch_semaphore_bound_witness :
    runningCount ((List.replicate 4 JobPhase.waiting).set 0 JobPhase.running)
      ≤ batchSemaphoreLimit :=
  batch_semaphore_bound 4 _
    (BatchReachable.step BatchReachable.init
      (BatchStep.start (List.replicate 4 JobPhase.waiting) 0 (by decide)
        (by decide)))

/-- A simulated transcription is never the empty string. -/
theorem transcribeFile_beq_empty (p : String) : (transcribeFile p == "") = false := by
  rw [beq_eq_false_iff_ne]
  intro h
  have hlen := congrArg String.length h
  simp [transcribeFile, String.length_append] at hlen
  exact (by decide : ¬("Transcription of ".length = 0)) hlen.1.1

/-- C1: the routing decision taken after the `transcribe` node is a single
conditional on the file type: on every workflow input state (any id, path
and metadata), the label `_should_analyze` returns equals the spec's
file-type-only routing function. -/
theorem route_after_transcribe_single_conditional (id : Int)
    (path file_type : String) (meta : Option (List (String × PyVal))) :
    shouldAnalyze
        (TranscriptionAgent.process none (initialState id path file_type meta)) =
      specRouteOfFileType file_type := by
  by_cases ha : file_type = "audio"
  · simp [TranscriptionAgent.process, initialState, shouldAnalyze,
      specRouteOfFileType, awaitCall, strTruthy, transcribeFile_beq_empty, ha]
  · by_cases hv : file_type = "video"
    · simp [TranscriptionAgent.process, initialState, shouldAnalyze,
        specRouteOfFileType, awaitCall, strTruthy, transcribeFile_beq_empty, hv]
    · by_cases hi : file_type = "image"
      · simp [TranscriptionAgent.process, initialState, shouldAnalyze,
          specRouteOfFileType, awaitCall, strTruthy, ha, hv, hi]
      · by_cases hd : file_type = "document"
        · simp [TranscriptionAgent.process, initialState, shouldAnalyze,
            specRouteOfFileType, awaitCall, strTruthy, ha, hv, hi, hd]
        · simp [TranscriptionAgent.process, initialState, shouldAnalyze,
            specRouteOfFileType, awaitCall, strTruthy, ha, hv, hi, hd]

/-- The router always answers one of the two labels of the conditional edge
table. -/
theorem routeMap_shouldAnalyze (s : AgentState) :
    routeMap (shouldAnalyze s) = some WNode.analyze ∨
      routeMap (shouldAnalyze s) = some WNode.generate_content := by
  unfold shouldAnalyze
  split
  · left; rfl
  · split
    · left; rfl
    · right; rfl

/-- C4: every `process_media` run is sequential and single-pass: for every
oracle and every input, the compiled graph terminates and visits exactly
`transcribe, analyze, generate_content` or `transcribe, generate_content` —
`transcribe` first, `analyze` at most once, `generate_content` exactly once
and last, and no node twice. -/
theorem process_media_single_pass (o : WorkflowOracle) (id : Int)
    (path file_type : String) (meta : Option (List (String × PyVal))) :
    ∃ visits final,
      processMedia o id path file_type meta = some (visits, final) ∧
      (visits = [WNode.transcribe, WNode.analyze, WNode.generate_content] ∨
       visits = [WNode.transcribe, WNode.generate_content]) := by
  have hun : ∀ n s, runNodes o 4 n s =
      (match stepNode o n s with
       | (s', NextStep.halt) => some ([n], s')
       | (s', NextStep.goto n') =>
           (runNodes o 3 n' s').map (fun p => (n :: p.1, p.2))
       | (_, NextStep.invalid) => none) := fun _ _ => rfl
  rcases routeMap_shouldAnalyze
      (TranscriptionAgent.process o.transcribeInterrupt
        (initialState id path file_type meta)) with h | h
  · refine ⟨[WNode.transcribe, WNode.analyze, WNode.generate_content],
      ContentGenerationAgent.process o.content
        (AnalysisAgent.process o.analysis
          (TranscriptionAgent.process o.transcribeInterrupt
            (initialState id path file_type meta))), ?_, Or.inl rfl⟩
    show runNodes o 4 WNode.transcribe (initialState id path file_type meta) = _
    rw [hun]
    have hstep : stepNode o WNode.transcribe (initialState id path file_type meta)
        = (TranscriptionAgent.process o.transcribeInterrupt
            (initialState id path file_type meta), NextStep.goto WNode.analyze) := by
      simp [stepNode, h]
    rw [hstep]
    rfl
  · refine ⟨[WNode.transcribe, WNode.generate_content],
      ContentGenerationAgent.process o.content
        (TranscriptionAgent.process o.transcribeInterrupt
          (initialState id path file_type meta)), ?_, Or.inr rfl⟩
    show runNodes o 4 WNode.transcribe (initialState id path file_type meta) = _
    rw [hun]
    have hstep : stepNode o WNode.transcribe (initialState id path file_type meta)
        = (TranscriptionAgent.process o.transcribeInterrupt
            (initialState id path file_type meta),
           NextStep.goto WNode.generate_content) := by
      simp [stepNode, h]
    rw [hstep]
    rfl

/-- An exception with message `m` escapes to the `except` handler of
`AnalysisAgent.process`: it is raised at the first of the three awaited
calls that is interrupted. -/
def AnalysisOracle.raises (o : AnalysisOracle) (m : String) : Prop :=
  o.summaryInterrupt = some m ∨
  (o.summaryInterrupt = none ∧ o.tagsInterrupt = some m) ∨
  (o.summaryInterrupt = none ∧ o.tagsInterrupt = none ∧
    o.insightsInterrupt = some m)

/-- An exception with message `m` escapes to the `except` handler of
`ContentGenerationAgent.process`. -/
def ContentOracle.raises (o : ContentOracle) (m : String) : Prop :=
  o.blogInterrupt = some m ∨
  (o.blogInterrupt = none ∧ o.socialInterrupt = some m) ∨
  (o.blogInterrupt = none ∧ o.socialInterrupt = none ∧
    o.scriptInterrupt = some m) ∨
  (o.blogInterrupt = none ∧ o.socialInterrupt = none ∧
    o.scriptInterrupt = none ∧ o.qnaInterrupt = some m)

/-- C2: for each of the three media-pipeline agents, an exception raised
inside `process` is caught: its message is appended (with the agent's
prefix) to the state's `errors`, `processing_status` becomes `"error"`, and
the (same job's) state is returned instead of the exception propagating. -/
theorem agent_exceptions_recorded (s : AgentState) :
    (∀ m, ((["audio", "video"] : List String).contains s.file_type) = true →
      (TranscriptionAgent.process (some m) s).errors
          = s.errors ++ ["Transcription error: " ++ m] ∧
      (TranscriptionAgent.process (some m) s).processing_status = "error" ∧
      (TranscriptionAgent.process (some m) s).media_file_id = s.media_file_id) ∧
    (∀ (o : AnalysisOracle) m, o.raises m →
      (AnalysisAgent.process o s).errors
          = s.errors ++ ["Analysis error: " ++ m] ∧
      (AnalysisAgent.process o s).processing_status = "error" ∧
      (AnalysisAgent.process o s).media_file_id = s.media_file_id) ∧
    (∀ (o : ContentOracle) m, o.raises m →
      (ContentGenerationAgent.process o s).errors
          = s.errors ++ ["Content generation error: " ++ m] ∧
      (ContentGenerationAgent.process o s).processing_status = "error" ∧
      (ContentGenerationAgent.process o s).media_file_id = s.media_file_id) := by
  refine ⟨?_, ?_, ?_⟩
  · intro m hm
    simp only [List.contains_cons, List.contains_nil, Bool.or_false,
      Bool.or_eq_true, beq_iff_eq] at hm
    rcases hm with hm | hm <;>
      simp [TranscriptionAgent.process, hm, awaitCall]
  · rintro o m (h1 | ⟨h1, h2⟩ | ⟨h1, h2, h3⟩) <;>
      simp [AnalysisAgent.process, awaitCall, analysisError, h1]
    · simp [h2]
    · simp [h2, h3]
  · rintro o m (h1 | ⟨h1, h2⟩ | ⟨h1, h2, h3⟩ | ⟨h1, h2, h3, h4⟩) <;>
      simp [ContentGenerationAgent.process, awaitCall, h1, Bind.bind, Except.bind]
    · simp [h2]
    · simp [h2, h3]
    · simp [h2, h3, h4]

/-- Witness for C2: a concrete audio-file state and concrete interrupted
oracles for each agent. -/
theorem agent_exceptions_recorded_witness :
    (TranscriptionAgent.process (some "boom")
        (initialState 1 "a.mp3" "audio" none)).errors
      = ["Transcription error: boom"] ∧
    (AnalysisAgent.process
        { summaryLLM := Except.ok "s", tagsLLM := Except.ok "t",
          insightsLLM := Except.ok "i", summaryInterrupt := some "boom" }
        (initialState 1 "a.mp3" "audio" none)).processing_status = "error" ∧
    (ContentGenerationAgent.process
        { blogLLM := Except.ok "b", socialLLM := Except.ok "so",
          scriptLLM := Except.ok "sc", qnaLLM := Except.ok "q",
          qnaInterrupt := some "boom" }
        (initialState 1 "a.mp3" "audio" none)).errors
      = ["Content generation error: boom"] :=
  ⟨((agent_exceptions_recorded (initialState 1 "a.mp3" "audio" none)).1
      "boom" rfl).1,
   ((agent_exceptions_recorded (initialState 1 "a.mp3" "audio" none)).2.1
      { summaryLLM := Except.ok "s", tagsLLM := Except.ok "t",
        insightsLLM := Except.ok "i", summaryInterrupt := some "boom" }
      "boom" (Or.inl rfl)).2.1,
   ((agent_exceptions_recorded (initialState 1 "a.mp3" "audio" none)).2.2
      { blogLLM := Except.ok "b", socialLLM := Except.ok "so",
        scriptLLM := Except.ok "sc", qnaLLM := Except.ok "q",
        qnaInterrupt := some "boom" }
      "boom" (Or.inr (Or.inr (Or.inr ⟨rfl, rfl, rfl, rfl⟩)))).1⟩

/-- C9: when the analysis body runs to completion (no exception escapes the
summary or tag awaits), the resulting `tags` list has at most 7 entries: the
LLM path is the comma-split reply truncated to 7, and the fallback path is
the three fixed tags. -/
theorem analysis_tags_bounded (o : AnalysisOracle) (s : AgentState)
    (h1 : o.summaryInterrupt = none) (h2 : o.tagsInterrupt = none) :
    (AnalysisAgent.process o s).tags.length ≤ 7 ∧
    ((∃ r, o.tagsLLM = Except.ok r ∧
        (AnalysisAgent.process o s).tags
          = ((r.splitOn ",").map String.trim).take 7) ∨
     (∃ e, o.tagsLLM = Except.error e ∧
        (AnalysisAgent.process o s).tags = ["media", "content", "analysis"])) := by
  have htags : (AnalysisAgent.process o s).tags
      = extractTags o.tagsLLM (pyOr s.transcription "No transcription available") := by
    cases h3 : o.insightsInterrupt <;>
      simp [AnalysisAgent.process, awaitCall, h1, h2, h3, analysisError]
  constructor
  · rw [htags]
    cases hllm : o.tagsLLM with
    | ok r =>
        simpa [extractTags] using
          List.length_take_le 7 ((r.splitOn ",").map String.trim)
    | error e => simp [extractTags]
  · cases hllm : o.tagsLLM with
    | ok r => exact Or.inl ⟨r, rfl, by rw [htags, hllm]; rfl⟩
    | error e => exact Or.inr ⟨e, rfl, by rw [htags, hllm]; rfl⟩

/-- Witness for C9: a concrete oracle whose tag reply splits into two tags. -/
theorem analysis_tags_bounded_witness :
    (AnalysisAgent.process
        { summaryLLM := Except.ok "s", tagsLLM := Except.ok "a, b",
          insightsLLM := Except.ok "i" }
        (initialState 1 "a.mp3" "audio" none)).tags.length ≤ 7 :=
  (analysis_tags_bounded
      { summaryLLM := Except.ok "s", tagsLLM := Except.ok "a, b",
        insightsLLM := Except.ok "i" }
      (initialState 1 "a.mp3" "audio" none) rfl rfl).1

/-- C10: `get_system_stats` reports `"operational"` exactly when the success
rate — completed history entries over total history entries, with the float
division modelled exactly over `ℚ` — exceeds 0.8; with an empty history the
rate is defined as 0 and the report is `"degraded"`. -/
theorem system_status_iff_success_rate (st : OrchestratorState) :
    ((get_system_stats st).system_status = "operational" ↔
      ((st.job_history.countP (fun j => j.status == "completed") : ℚ) /
        (st.job_history.length : ℚ) > 0.8)) ∧
    (st.job_history = [] →
      (get_system_stats st).success_rate = 0 ∧
      (get_system_stats st).system_status = "degraded") := by
  constructor
  · by_cases hlen : st.job_history.length > 0
    · by_cases hrate : ((st.job_history.countP (fun j => j.status == "completed") : ℚ) /
          (st.job_history.length : ℚ) > 0.8)
      · simp [get_system_stats, hlen, hrate]
      · simp [get_system_stats, hlen, hrate]
    · have hnil : st.job_history = [] := by
        cases h : st.job_history with
        | nil => rfl
        | cons a l => rw [h] at hlen; simp at hlen
      simp [get_system_stats, hnil]
  · intro hnil
    simp [get_system_stats, hnil]
    norm_num

/-- Witness for C10: the freshly constructed orchestrator has an empty
history, a success rate of 0 and a `"degraded"` report. -/
theorem system_status_iff_success_rate_witness :
    (get_system_stats {}).success_rate = 0 ∧
    (get_system_stats {}).system_status = "degraded" :=
  (system_status_iff_success_rate {}).2 rfl

/-- A successful verification deletes the stored OTP entry. -/
theorem verify_otp_true_clears (now : Nat) (st : Option OtpEntry) (otp : String)
    (maxA : Nat) (h : (verify_otp now st otp maxA).1 = true) :
    (verify_otp now st otp maxA).2 = none := by
  cases st with
  | none => simp [verify_otp] at h
  | some e =>
      by_cases h1 : e.expires_at < now
      · simp [verify_otp, h1] at h
      · by_cases h2 : maxA ≤ e.attempts
        · simp [verify_otp, h1, h2] at h
        · by_cases h3 : (e.otp == otp) = true
          · simp [verify_otp, h1, h2, h3]
          · simp [verify_otp, h1, h2, h3] at h

/-- Verification against an absent entry fails and stores nothing. -/
theorem verify_otp_none (now : Nat) (otp : String) (maxA : Nat) :
    verify_otp now none otp maxA = (false, none) := rfl

/-- Once the entry is gone, every later verification in a sequence fails. -/
theorem verifySeq_none_all_false (calls : List (Nat × String × Nat)) :
    ((verifySeq none calls).1.all (fun b => b == false)) = true := by
  induction calls with
  | nil => rfl
  | cons c rest ih =>
      obtain ⟨now, otp, maxA⟩ := c
      simpa [verifySeq, verify_otp] using ih

/-- C7: the password-reset OTP is one-time: after a verification returns
`True`, every later verification fails until a new OTP is generated (which
installs a fresh entry); an OTP never verifies past its expiry instant nor
once `max_attempts` attempts have been consumed. -/
theorem otp_one_time :
    (∀ (now : Nat) (st : Option OtpEntry) (otp : String) (maxA : Nat),
      (verify_otp now st otp maxA).1 = true →
      ∀ calls : List (Nat × String × Nat),
        ((verifySeq (verify_otp now st otp maxA).2 calls).1.all
          (fun b => b == false)) = true) ∧
    (∀ (now : Nat) (e : OtpEntry) (otp : String) (maxA : Nat),
      e.expires_at < now → (verify_otp now (some e) otp maxA).1 = false) ∧
    (∀ (now : Nat) (e : OtpEntry) (otp : String) (maxA : Nat),
      maxA ≤ e.attempts → (verify_otp now (some e) otp maxA).1 = false) ∧
    (∀ (draw : Nat → Nat) (now : Nat),
      (generate_otp draw now).2 =
        some { otp := (generate_otp draw now).1,
               expires_at := now + 10 * 60, attempts := 0 }) := by
  refine ⟨?_, ?_, ?_, ?_⟩
  · intro now st otp maxA h calls
    rw [verify_otp_true_clears now st otp maxA h]
    exact verifySeq_none_all_false calls
  · intro now e otp maxA h
    simp [verify_otp, h]
  · intro now e otp maxA h
    by_cases h1 : e.expires_at < now <;> simp [verify_otp, h1, h]
  · intro draw now
    rfl

/-- Witness for C7: a concrete entry verified successfully at time 0, then
probed twice more; a concrete expired entry; a concrete exhausted entry. -/
theorem otp_one_time_witness :
    ((verifySeq
        (verify_otp 0 (some (OtpEntry.mk "123456" 100 0)) "123456" 3).2
        [(1, "123456", 3), (2, "123456", 3)]).1.all
      (fun b => b == false)) = true ∧
    (verify_otp 5 (some { otp := "1", expires_at := 3, attempts := 0 }) "1" 3).1
      = false ∧
    (verify_otp 0 (some { otp := "1", expires_at := 9, attempts := 3 }) "1" 3).1
      = false :=
  ⟨otp_one_time.1 0 (some (OtpEntry.mk "123456" 100 0))
      "123456" 3 (by decide) [(1, "123456", 3), (2, "123456", 3)],
   otp_one_time.2.1 5 { otp := "1", expires_at := 3, attempts := 0 } "1" 3
      (by decide),
   otp_one_time.2.2.1 0 { otp := "1", expires_at := 9, attempts := 3 } "1" 3
      (by decide)⟩

/-- A decimal digit character has the expected code point. -/
theorem digitChar_toNat (d : Nat) (h : d < 10) :
    (Char.ofNat (48 + d)).toNat = 48 + d := by
  interval_cases d <;> decide

/-- A decimal digit character satisfies `isDigit`. -/
theorem digitChar_isDigit (d : Nat) (h : d < 10) :
    (Char.ofNat (48 + d)).isDigit = true := by
  interval_cases d <;> decide

/-- Appending one digit multiplies the accumulated value by ten. -/
theorem digitsVal_append (cs : List Char) (c : Char) :
    digitsVal (cs ++ [c]) = digitsVal cs * 10 + (c.toNat - 48) := by
  simp [digitsVal, List.foldl_append]

/-- Parsing the decimal rendering of `n` gives back `n`. -/
theorem digitsVal_natDigits (n : Nat) : digitsVal (natDigits n) = n := by
  induction n using Nat.strong_induction_on with
  | _ n ih =>
      rw [natDigits]
      split
      · next h => simp [digitsVal, digitChar_toNat n h]
      · next h =>
          rw [digitsVal_append, ih (n / 10) (by omega),
            digitChar_toNat (n % 10) (by omega)]
          omega

/-- Every character of a decimal rendering is a digit. -/
theorem natDigits_all_digit (n : Nat) : (natDigits n).all Char.isDigit = true := by
  induction n using Nat.strong_induction_on with
  | _ n ih =>
      rw [natDigits]
      split
      · next h => simp [digitChar_isDigit n h]
      · next h =>
          simp only [List.all_append, Bool.and_eq_true]
          exact ⟨ih (n / 10) (by omega),
            by simp [digitChar_isDigit (n % 10) (by omega)]⟩

/-- A decimal rendering is never empty. -/
theorem natDigits_ne_nil (n : Nat) : natDigits n ≠ [] := by
  rw [natDigits]
  split <;> simp

/-- Python `int(str(n)) = n` for a natural number `n`. -/
theorem pyInt_pyStrNat (n : Nat) : pyInt (pyStrNat n) = some n := by
  rw [pyInt]
  rw [if_pos ⟨natDigits_ne_nil n, natDigits_all_digit n⟩]
  show some (digitsVal (natDigits n)) = some n
  rw [digitsVal_natDigits]

/-- C8: a token minted by `create_access_token` with payload
`{"sub": str(n), "email": email}` — the login/OAuth-callback payload —
decoded under the same secret key before its expiry instant by
`get_current_user_id` yields exactly the user id `n`. -/
theorem jwt_sub_roundtrip (n : Nat) (email : String) (delta : Option Nat)
    (issued now : Nat) (secret : String)
    (h : now ≤ issued + delta.getD (24 * 60 * 60)) :
    get_current_user_id
        (create_access_token
          [("sub", JwtVal.str (pyStrNat n)), ("email", JwtVal.str email)]
          delta issued secret)
        now secret = Except.ok n := by
  have hset : dictSet
      [("sub", JwtVal.str (pyStrNat n)), ("email", JwtVal.str email)] "exp"
      (JwtVal.num (issued + delta.getD (24 * 60 * 60)))
      = [("sub", JwtVal.str (pyStrNat n)), ("email", JwtVal.str email),
         ("exp", JwtVal.num (issued + delta.getD (24 * 60 * 60)))] := rfl
  have hexp : dictGet
      [("sub", JwtVal.str (pyStrNat n)), ("email", JwtVal.str email),
       ("exp", JwtVal.num (issued + delta.getD (24 * 60 * 60)))] "exp"
      = some (JwtVal.num (issued + delta.getD (24 * 60 * 60))) := rfl
  have hsub : dictGet
      [("sub", JwtVal.str (pyStrNat n)), ("email", JwtVal.str email),
       ("exp", JwtVal.num (issued + delta.getD (24 * 60 * 60)))] "sub"
      = some (JwtVal.str (pyStrNat n)) := rfl
  have hnl : ¬(issued + delta.getD (24 * 60 * 60) < now) := by omega
  simp [get_current_user_id, jwtDecode, create_access_token, hset, hexp, hsub,
    hnl, pyInt_pyStrNat]

/-- Witness for C8: user id 42, a 1-hour expiry window, decoded 100 seconds
after issuance. -/
theorem jwt_sub_roundtrip_witness :
    get_current_user_id
        (create_access_token
          [("sub", JwtVal.str (pyStrNat 42)), ("email", JwtVal.str "a@b.c")]
          (some 3600) 0 "secret-key")
        100 "secret-key" = Except.ok 42 :=
  jwt_sub_roundtrip 42 "a@b.c" (some 3600) 0 100 "secret-key" (by decide)
